import Mathlib

/-!
Shallow embedding of the booking-gym fitness class booking system
(src/db_schema.py, src/domain/models.py, src/domain/repository.py,
src/service/booking_service.py), together with theorems settling the
specification claims about the booking decision engine.

Modelling conventions:
* SQLite rows become Lean structures; the two tables become lists inside `DB`.
* The `datetime_utc` TEXT column is modelled by its parse result: `some t`
  for a string that `datetime.fromisoformat` accepts (an absolute UTC
  instant, as an integer), `none` for an unparseable string (the service
  has an explicit branch for that case).
* `AUTOINCREMENT` ids are modelled by the `next_booking_id` counter.
* Integer columns are `Int`, so the capacity invariant `0 ≤ available_slots`
  is a genuine proof obligation rather than an artefact of `Nat` truncation.
* Each SQL statement of `db_schema.py` becomes one function in `Queries`;
  the repository and service layers are translated branch by branch, each
  `return` site of `BookingService.create_booking` becoming one
  `BookingOutcome` constructor.
* A transaction that rolls back returns the caller's original `DB` value.
-/

namespace GymBooking

/-- Row of the `classes` table (src/db_schema.py CREATE_CLASSES_TABLE,
mirrored by the pydantic model `Class` in src/domain/models.py). -/
structure Class where
  id : Nat
  name : String
  instructor : String
  datetime_utc : Option Int
  timezone : String
  total_slots : Int
  available_slots : Int
deriving DecidableEq

/-- Row of the `bookings` table (src/db_schema.py CREATE_BOOKINGS_TABLE). -/
structure Booking where
  id : Nat
  class_id : Nat
  client_name : String
  client_email : String
  booking_time : Int
  status : String
deriving DecidableEq

/-- A validated booking request (src/domain/models.py `BookingRequest`). -/
structure BookingRequest where
  class_id : Nat
  client_name : String
  client_email : String
deriving DecidableEq

/-- The SQLite database state: both tables plus the AUTOINCREMENT counter
for `bookings.id`. -/
structure DB where
  classes : List Class
  bookings : List Booking
  next_booking_id : Nat
deriving DecidableEq

namespace Queries

/-- SELECT ... FROM classes WHERE id = ? (src/db_schema.py GET_CLASS_BY_ID). -/
def GET_CLASS_BY_ID (db : DB) (class_id : Nat) : Option Class :=
  db.classes.find? (fun c => c.id = class_id)

/-- SELECT COUNT(*) FROM bookings WHERE class_id = ? AND client_email = ?
AND status = 'confirmed' (src/db_schema.py CHECK_EXISTING_BOOKING). -/
def CHECK_EXISTING_BOOKING (db : DB) (class_id : Nat) (client_email : String) : Nat :=
  (db.bookings.filter
    (fun b => b.class_id = class_id ∧ b.client_email = client_email ∧ b.status = "confirmed")).length

/-- UPDATE classes SET available_slots = available_slots - 1 WHERE id = ?
AND available_slots > 0 (src/db_schema.py UPDATE_CLASS_SLOTS).  Returns the
updated table together with the affected row count (`cursor.rowcount`). -/
def UPDATE_CLASS_SLOTS (db : DB) (class_id : Nat) : DB × Nat :=
  ({ db with classes := db.classes.map (fun c =>
      if c.id = class_id ∧ 0 < c.available_slots then
        { c with available_slots := c.available_slots - 1 }
      else c) },
   (db.classes.filter (fun c => c.id = class_id ∧ 0 < c.available_slots)).length)

/-- INSERT INTO bookings (class_id, client_name, client_email, booking_time)
VALUES (?, ?, ?, ?) (src/db_schema.py INSERT_BOOKING); `status` takes the
schema default 'confirmed'.  Returns the new table state and
`cursor.lastrowid`. -/
def INSERT_BOOKING (db : DB) (class_id : Nat) (client_name client_email : String)
    (booking_time : Int) : DB × Nat :=
  ({ db with
      bookings := db.bookings ++
        [⟨db.next_booking_id, class_id, client_name, client_email, booking_time, "confirmed"⟩],
      next_booking_id := db.next_booking_id + 1 },
   db.next_booking_id)

/-- SELECT b.*, c.* FROM bookings b JOIN classes c ON b.class_id = c.id
WHERE b.client_email = ? (src/db_schema.py GET_BOOKINGS_BY_EMAIL, before
the ORDER BY clause).  The inner join drops bookings whose class id has no
matching class row. -/
def GET_BOOKINGS_BY_EMAIL (db : DB) (client_email : String) : List (Booking × Class) :=
  (db.bookings.filter (fun b => b.client_email = client_email)).filterMap
    (fun b => (GET_CLASS_BY_ID db b.class_id).map (fun c => (b, c)))

/-- Insertion step for the ORDER BY b.booking_time DESC clause. -/
def insertByTimeDesc (x : Booking × Class) : List (Booking × Class) → List (Booking × Class)
  | [] => [x]
  | y :: ys =>
    if y.1.booking_time ≤ x.1.booking_time then x :: y :: ys else y :: insertByTimeDesc x ys

/-- ORDER BY b.booking_time DESC (src/db_schema.py GET_BOOKINGS_BY_EMAIL). -/
def ORDER_BY_TIME_DESC : List (Booking × Class) → List (Booking × Class)
  | [] => []
  | x :: xs => insertByTimeDesc x (ORDER_BY_TIME_DESC xs)

end Queries

namespace BookingRepository

/-- BookingRepository.get_class_by_id (src/domain/repository.py lines 85-111):
a point read of the classes table. -/
def get_class_by_id (db : DB) (class_id : Nat) : Option Class :=
  Queries.GET_CLASS_BY_ID db class_id

/-- BookingRepository.check_existing_booking (src/domain/repository.py lines
218-229): `count > 0` over CHECK_EXISTING_BOOKING. -/
def check_existing_booking (db : DB) (class_id : Nat) (client_email : String) : Bool :=
  decide (0 < Queries.CHECK_EXISTING_BOOKING db class_id client_email)

/-- BookingRepository.update_class_slots (src/domain/repository.py lines
231-241): the conditional decrement, reporting `rowcount > 0`. -/
def update_class_slots (db : DB) (class_id : Nat) : DB × Bool :=
  ((Queries.UPDATE_CLASS_SLOTS db class_id).1,
   decide (0 < (Queries.UPDATE_CLASS_SLOTS db class_id).2))

/-- BookingRepository.create_booking (src/domain/repository.py lines 113-185):
one BEGIN ... COMMIT/ROLLBACK unit of work.  Every early `return None` and the
`rowcount == 0` rollback leave the database at its pre-call value; only the
commit branch publishes the inserted booking row and the decremented slot. -/
def create_booking (db : DB) (req : BookingRequest) (booking_time : Int) :
    Option Booking × DB :=
  match Queries.GET_CLASS_BY_ID db req.class_id with
  | none => (none, db)
  | some class_row =>
    if class_row.available_slots ≤ 0 then (none, db)
    else if 0 < Queries.CHECK_EXISTING_BOOKING db req.class_id req.client_email then (none, db)
    else
      let inserted := Queries.INSERT_BOOKING db req.class_id req.client_name
        req.client_email booking_time
      let updated := Queries.UPDATE_CLASS_SLOTS inserted.1 req.class_id
      if updated.2 = 0 then (none, db)
      else (some ⟨inserted.2, req.class_id, req.client_name, req.client_email,
              booking_time, "confirmed"⟩,
            updated.1)

/-- BookingRepository.get_bookings_by_email (src/domain/repository.py lines
187-216): the joined rows in booking_time-descending order. -/
def get_bookings_by_email (db : DB) (client_email : String) : List (Booking × Class) :=
  Queries.ORDER_BY_TIME_DESC (Queries.GET_BOOKINGS_BY_EMAIL db client_email)

/-- Modelled from the spec: the repository layer under src has no
`cancel_booking` implementation (src/domain/repository.py declares neither an
abstract nor a concrete method; only the service caller exists).  Spec section
4.3: looks up the booking; succeeds only if it exists, its status is confirmed,
and its client_email matches the caller; transitions status to cancelled. -/
def cancel_booking (db : DB) (booking_id : Nat) (client_email : String) : Bool × DB :=
  match db.bookings.find? (fun b => b.id = booking_id) with
  | none => (false, db)
  | some b =>
    if b.status = "confirmed" ∧ b.client_email = client_email then
      (true, { db with bookings := db.bookings.map (fun x =>
        if x.id = booking_id then { x with status := "cancelled" } else x) })
    else (false, db)

end BookingRepository

/-- One constructor per `return BookingResult(...)` site of
BookingService.create_booking (src/service/booking_service.py lines 78-149). -/
inductive BookingOutcome where
  /-- lines 138-142: success, carrying the booking id and the class name and
  instructor used in the success message. -/
  | confirmed (booking_id : Nat) (class_name : String) (class_instructor : String)
  /-- lines 86-89: the class id was not found. -/
  | classNotFound (class_id : Nat)
  /-- lines 102-107: the stored datetime text failed to parse. -/
  | invalidDatetime
  /-- lines 97-101: the class is past or ongoing. -/
  | classInPast
  /-- lines 110-114: `available_slots <= 0` on the freshly read class row. -/
  | classFull (class_name : String)
  /-- lines 122-126: the caller already has a booking for this class. -/
  | duplicateBooking
  /-- lines 131-135: the repository returned no booking. -/
  | createFailed
deriving DecidableEq

/-- The `message` string of the BookingResult built at each return site of
BookingService.create_booking. -/
def BookingOutcome.message : BookingOutcome → String
  | .confirmed _ class_name class_instructor =>
      "Successfully booked \x27" ++ class_name ++ "\x27 class with " ++ class_instructor
  | .classNotFound class_id => "Class with ID " ++ toString class_id ++ " not found"
  | .invalidDatetime => "Invalid class datetime"
  | .classInPast => "Cannot book past or ongoing classes"
  | .classFull class_name => "Class \x27" ++ class_name ++ "\x27 is fully booked"
  | .duplicateBooking => "You already have a booking for this class"
  | .createFailed => "Failed to create booking. Please try again."

/-- True exactly on the success outcome. -/
def BookingOutcome.isConfirmed : BookingOutcome → Bool
  | .confirmed _ _ _ => true
  | _ => false

/-- True exactly on the fully-booked rejection. -/
def BookingOutcome.isClassFull : BookingOutcome → Bool
  | .classFull _ => true
  | _ => false

/-- Outcome of BookingService.cancel_booking (src/service/booking_service.py
lines 181-204). -/
inductive CancelOutcome where
  | cancelled
  | notFoundOrNotOwned
deriving DecidableEq

/-- Availability record built by BookingService.get_class_availability
(src/service/booking_service.py lines 206-222). -/
structure AvailabilityInfo where
  class_id : Nat
  class_name : String
  total_slots : Int
  available_slots : Int
  booked_slots : Int
  is_available : Bool
deriving DecidableEq

namespace BookingService

/-- BookingService.create_booking (src/service/booking_service.py lines
78-149), run sequentially against the store `db`: the repository reads and
the repository transaction all observe the same threaded state.  `now` is
`datetime.now(pytz.UTC)` and `booking_time` is `datetime.utcnow()` at the
instant of the call. -/
def create_booking (db : DB) (now booking_time : Int) (req : BookingRequest) :
    BookingOutcome × DB :=
  match BookingRepository.get_class_by_id db req.class_id with
  | none => (.classNotFound req.class_id, db)
  | some class_obj =>
    match class_obj.datetime_utc with
    | none => (.invalidDatetime, db)
    | some class_datetime =>
      if class_datetime ≤ now then (.classInPast, db)
      else if class_obj.available_slots ≤ 0 then (.classFull class_obj.name, db)
      else if BookingRepository.check_existing_booking db req.class_id req.client_email then
        (.duplicateBooking, db)
      else
        match BookingRepository.create_booking db req booking_time with
        | (none, db') => (.createFailed, db')
        | (some booking, db') =>
          (.confirmed booking.id class_obj.name class_obj.instructor, db')

/-- What the injected repository dependency answers during one
create_booking call.  BookingService receives its repository by dependency
injection against BookingRepositoryInterface (src/domain/repository.py lines
17-48); the unit tests drive the service with a MagicMock in exactly this
shape. -/
structure RepoCallResults where
  get_class_by_id : Option Class
  check_existing_booking : Bool
  create_booking : Option Booking

/-- BookingService.create_booking, written against the abstract repository
interface: the same branch structure as `create_booking`, with each
repository call answered by `repo`. -/
def create_booking_with_repo (repo : RepoCallResults) (now : Int) (class_id : Nat) :
    BookingOutcome :=
  match repo.get_class_by_id with
  | none => .classNotFound class_id
  | some class_obj =>
    match class_obj.datetime_utc with
    | none => .invalidDatetime
    | some class_datetime =>
      if class_datetime ≤ now then .classInPast
      else if class_obj.available_slots ≤ 0 then .classFull class_obj.name
      else if repo.check_existing_booking then .duplicateBooking
      else
        match repo.create_booking with
        | none => .createFailed
        | some booking => .confirmed booking.id class_obj.name class_obj.instructor

/-- BookingService.get_bookings_by_email (src/service/booking_service.py
lines 151-179).  The guard at line 157 returns [] for an empty email or one
with no @ sign before any repository access; the timezone conversion of each
row to a BookingResponse is display formatting and is out of core scope. -/
def get_bookings_by_email (db : DB) (email : String) : List (Booking × Class) :=
  if email = "" ∨ email.data.contains '@' = false then []
  else BookingRepository.get_bookings_by_email db email

/-- BookingService.cancel_booking (src/service/booking_service.py lines
181-204): maps the repository boolean to the two outcomes. -/
def cancel_booking (db : DB) (booking_id : Nat) (client_email : String) :
    CancelOutcome × DB :=
  match BookingRepository.cancel_booking db booking_id client_email with
  | (true, db') => (.cancelled, db')
  | (false, db') => (.notFoundOrNotOwned, db')

/-- BookingService.get_class_availability (src/service/booking_service.py
lines 206-222): a pure read, absent for an unknown class id. -/
def get_class_availability (db : DB) (class_id : Nat) : Option AvailabilityInfo :=
  match BookingRepository.get_class_by_id db class_id with
  | none => none
  | some class_obj =>
    some ⟨class_obj.id, class_obj.name, class_obj.total_slots, class_obj.available_slots,
      class_obj.total_slots - class_obj.available_slots,
      decide (0 < class_obj.available_slots)⟩

end BookingService

/-!
Interleaved execution model for concurrent create_booking calls.

A single BookingService.create_booking call touches the store three times,
each on its own SQLite connection (src/domain/repository.py opens a fresh
connection per repository method, and the transaction of
BookingRepository.create_booking is the only multi-statement unit):

1. the service's get_class_by_id read (booking_service.py line 84), after
   which the datetime and slot checks run on the in-process snapshot;
2. the service's check_existing_booking read (line 117);
3. the repository's create_booking transaction (line 129), which commits or
   rolls back atomically.

Between those three atomic store accesses, other callers' accesses can be
interleaved arbitrarily.  `CallPhase` is the in-process state of one call
between store accesses, and `stepCall` performs its next store access.
-/

/-- In-process progress of one create_booking call between store accesses. -/
inductive CallPhase where
  | start
  | gotClass (class_obj : Class)
  | passedDup (class_obj : Class)
  | done (outcome : BookingOutcome)
deriving DecidableEq

/-- True exactly when the call has finished with the success outcome. -/
def CallPhase.isConfirmedDone : CallPhase → Bool
  | .done (.confirmed _ _ _) => true
  | _ => false

/-- True exactly when the call has finished with the fully-booked rejection. -/
def CallPhase.isClassFullDone : CallPhase → Bool
  | .done (.classFull _) => true
  | _ => false

/-- Perform the next atomic store access of one call (see the section
comment); a finished call is a no-op. -/
def stepCall (db : DB) (now booking_time : Int) (req : BookingRequest) :
    CallPhase → CallPhase × DB
  | .start =>
    (match BookingRepository.get_class_by_id db req.class_id with
     | none => .done (.classNotFound req.class_id)
     | some class_obj =>
       match class_obj.datetime_utc with
       | none => .done .invalidDatetime
       | some class_datetime =>
         if class_datetime ≤ now then .done .classInPast
         else if class_obj.available_slots ≤ 0 then .done (.classFull class_obj.name)
         else .gotClass class_obj,
     db)
  | .gotClass class_obj =>
    (if BookingRepository.check_existing_booking db req.class_id req.client_email then
       .done .duplicateBooking
     else .passedDup class_obj,
     db)
  | .passedDup class_obj =>
    match BookingRepository.create_booking db req booking_time with
    | (none, db') => (.done .createFailed, db')
    | (some booking, db') =>
      (.done (.confirmed booking.id class_obj.name class_obj.instructor), db')
  | .done outcome => (.done outcome, db)

/-- Shared store plus the two callers' in-process states. -/
structure TwoCalls where
  db : DB
  call1 : CallPhase
  call2 : CallPhase
deriving DecidableEq

/-- Advance the caller selected by `pick` (true = call 1) one store access. -/
def schedStep (now t1 t2 : Int) (req1 req2 : BookingRequest) (s : TwoCalls)
    (pick : Bool) : TwoCalls :=
  if pick then
    { s with db := (stepCall s.db now t1 req1 s.call1).2,
             call1 := (stepCall s.db now t1 req1 s.call1).1 }
  else
    { s with db := (stepCall s.db now t2 req2 s.call2).2,
             call2 := (stepCall s.db now t2 req2 s.call2).1 }

/-- Run a schedule: the list says, store access by store access, which of the
two concurrent create_booking calls goes next. -/
def runSched (now t1 t2 : Int) (req1 req2 : BookingRequest) (s : TwoCalls) :
    List Bool → TwoCalls
  | [] => s
  | b :: bs => runSched now t1 t2 req1 req2 (schedStep now t1 t2 req1 req2 s b) bs

/-- All pick sequences of length `k`. -/
def allPickSeqs : Nat → List (List Bool)
  | 0 => [[]]
  | k + 1 =>
    (allPickSeqs k).map (fun s => true :: s) ++ (allPickSeqs k).map (fun s => false :: s)

/-- All interleavings of `n` steps of call 1 with `m` steps of call 2: the
pick sequences of length n + m in which call 1 is picked exactly n times. -/
def schedules (n m : Nat) : List (List Bool) :=
  (allPickSeqs (n + m)).filter (fun s => s.count true = n)

/-!
Concrete fixtures.  `raceDB` is the race scenario of spec property P3: one
future-dated class with a single available slot, two distinct callers.
`fullDupDB` is a full future-dated class where the caller already holds a
confirmed booking (for the check-ordering claim).
-/

/-- A future-dated class (instant 100) with one available slot. -/
def raceClass : Class := ⟨1, "Yoga", "Priya", some 100, "Asia/Kolkata", 5, 1⟩

/-- Store holding only `raceClass` and no bookings. -/
def raceDB : DB := ⟨[raceClass], [], 1⟩

/-- First concurrent caller. -/
def reqA : BookingRequest := ⟨1, "Alice", "a@x"⟩

/-- Second concurrent caller, distinct email. -/
def reqB : BookingRequest := ⟨1, "Bob", "b@x"⟩

/-- Run one schedule of the two concurrent calls against `raceDB` at
instant 0. -/
def raceRun (sched : List Bool) : TwoCalls :=
  runSched 0 10 20 reqA reqB ⟨raceDB, .start, .start⟩ sched

/-- A full (0 available slots) future-dated class. -/
def fullClass : Class := ⟨1, "Yoga", "Priya", some 100, "Asia/Kolkata", 5, 0⟩

/-- Store where `fullClass` is full and Alice already has a confirmed
booking for it. -/
def fullDupDB : DB := ⟨[fullClass], [⟨1, 1, "Alice", "a@x", 0, "confirmed"⟩], 2⟩

/-- A future-dated class with exactly one available slot, no bookings. -/
def oneSlotDB : DB := ⟨[raceClass], [], 1⟩

/-- An unparsed-datetime-free future class with plenty of slots. -/
def roomyClass : Class := ⟨1, "Yoga", "Priya", some 100, "Asia/Kolkata", 5, 3⟩

/-- Store holding only `roomyClass` and no bookings. -/
def roomyDB : DB := ⟨[roomyClass], [], 1⟩

/-- The empty store. -/
def emptyDB : DB := ⟨[], [], 1⟩

/-!
Theorems.
-/

/-- Every way the repository transaction ends without a booking — a missing
class, no slots on the read, an existing booking, or the conditional
decrement affecting no row followed by `conn.rollback()` — leaves the
database at its pre-call value. -/
theorem repo_create_none_state (db : DB) (req : BookingRequest) (t : Int)
    (h : (BookingRepository.create_booking db req t).1 = none) :
    (BookingRepository.create_booking db req t).2 = db := by
  unfold BookingRepository.create_booking at h ⊢
  rcases hc : Queries.GET_CLASS_BY_ID db req.class_id with _ | c
  · simp [hc]
  · simp only [hc] at h ⊢
    by_cases h1 : c.available_slots ≤ 0
    · simp [h1]
    · simp only [if_neg h1] at h ⊢
      by_cases h2 : 0 < Queries.CHECK_EXISTING_BOOKING db req.class_id req.client_email
      · simp [h2]
      · simp only [if_neg h2] at h ⊢
        by_cases h3 : (Queries.UPDATE_CLASS_SLOTS
            (Queries.INSERT_BOOKING db req.class_id req.client_name req.client_email t).1
            req.class_id).2 = 0
        · simp [h3]
        · simp [h3] at h

/-- C1 counterexample: against `fullDupDB` — an existing, future-dated class
with 0 available slots where Alice already holds a confirmed booking — her
request is rejected as ClassFull, not as DuplicateBooking, because the
service tests `available_slots <= 0` (booking_service.py line 110) before it
calls check_existing_booking (line 117). -/
theorem capacity_checked_before_duplicate_cx :
    (BookingService.create_booking fullDupDB 0 50 reqA).1 = .classFull "Yoga" ∧
    (BookingService.create_booking fullDupDB 0 50 reqA).1 ≠ .duplicateBooking ∧
    BookingRepository.check_existing_booking fullDupDB 1 "a@x" = true := by
  decide

/-- C1 (amended): the capacity check is evaluated before the duplicate
check: for every request against an existing future-dated class with no
available slots the verdict is ClassFull, whatever bookings the caller
already holds. -/
theorem capacity_checked_before_duplicate
    (db : DB) (now t : Int) (req : BookingRequest) (c : Class) (ts : Int)
    (hc : Queries.GET_CLASS_BY_ID db req.class_id = some c)
    (hdt : c.datetime_utc = some ts) (hfut : now < ts)
    (hfull : c.available_slots ≤ 0) :
    (BookingService.create_booking db now t req).1 = .classFull c.name := by
  unfold BookingService.create_booking BookingRepository.get_class_by_id
  rw [hc]
  simp [hdt, not_le.mpr hfut, hfull]

/-- C1 witness: the amended ordering theorem applied to `fullDupDB`. -/
theorem capacity_checked_before_duplicate_witness :
    Queries.GET_CLASS_BY_ID fullDupDB 1 = some fullClass ∧
    fullClass.datetime_utc = some 100 ∧ (0 : Int) < 100 ∧
    fullClass.available_slots ≤ 0 ∧
    (BookingService.create_booking fullDupDB 0 50 reqA).1 = .classFull fullClass.name :=
  ⟨by decide, by decide, by decide, by decide,
   capacity_checked_before_duplicate fullDupDB 0 50 reqA fullClass 100
     (by decide) (by decide) (by decide) (by decide)⟩

/-- C3: every non-Confirmed outcome of create_booking leaves the store at
its pre-call value — available_slots of every class is unchanged and no
booking row has been inserted. -/
theorem rejection_leaves_state_unchanged
    (db : DB) (now t : Int) (req : BookingRequest)
    (h : (BookingService.create_booking db now t req).1.isConfirmed = false) :
    (BookingService.create_booking db now t req).2 = db := by
  unfold BookingService.create_booking at h ⊢
  rcases hc : BookingRepository.get_class_by_id db req.class_id with _ | c
  · simp [hc]
  · simp only [hc] at h ⊢
    rcases hdt : c.datetime_utc with _ | ts
    · simp [hdt]
    · simp only [hdt] at h ⊢
      by_cases h1 : ts ≤ now
      · simp [h1]
      · simp only [if_neg h1] at h ⊢
        by_cases h2 : c.available_slots ≤ 0
        · simp [h2]
        · simp only [if_neg h2] at h ⊢
          by_cases h3 : BookingRepository.check_existing_booking db req.class_id req.client_email
          · simp [h3]
          · simp only [h3] at h ⊢
            rcases hr : BookingRepository.create_booking db req t with ⟨ob, db'⟩
            rcases ob with _ | b
            · simp only [hr, Bool.false_eq_true, if_false, if_true]
              have := repo_create_none_state db req t (by rw [hr])
              rw [hr] at this
              exact this
            · simp [hr, BookingOutcome.isConfirmed] at h

/-- C3 witness: a request for a class id absent from the store is rejected
and the (empty) store is unchanged. -/
theorem rejection_leaves_state_unchanged_witness :
    (BookingService.create_booking emptyDB 0 0 reqA).1.isConfirmed = false ∧
    (BookingService.create_booking emptyDB 0 0 reqA).2 = emptyDB :=
  ⟨by decide, rejection_leaves_state_unchanged emptyDB 0 0 reqA (by decide)⟩

/-- C5: a stored class whose parsed UTC instant is at or before `now` is
rejected as ClassInPast, for every store — so regardless of available_slots
and of any bookings — and the decision uses only the stored instant and the
current instant; no caller-supplied timezone enters create_booking at all. -/
theorem past_class_guard
    (db : DB) (now t : Int) (req : BookingRequest) (c : Class) (ts : Int)
    (hc : Queries.GET_CLASS_BY_ID db req.class_id = some c)
    (hdt : c.datetime_utc = some ts) (hpast : ts ≤ now) :
    (BookingService.create_booking db now t req).1 = .classInPast := by
  unfold BookingService.create_booking BookingRepository.get_class_by_id
  rw [hc]
  simp [hdt, hpast]

/-- C5 witness: the guard fires on the boundary instant (scheduled_at = now)
even though the class has free slots. -/
theorem past_class_guard_witness :
    Queries.GET_CLASS_BY_ID roomyDB 1 = some roomyClass ∧
    roomyClass.datetime_utc = some 100 ∧ (100 : Int) ≤ 100 ∧
    (BookingService.create_booking roomyDB 100 150 reqA).1 = .classInPast :=
  ⟨by decide, by decide, by decide,
   past_class_guard roomyDB 100 150 reqA roomyClass 100 (by decide) (by decide) (by decide)⟩

/-- C9: get_class_availability answers `none` exactly for an unknown class
id, and for an existing class returns its row's slot counts with
booked_slots = total_slots - available_slots and is_available true exactly
when a slot is free; the function reads the store and returns no new store
state. -/
theorem get_class_availability_spec (db : DB) (class_id : Nat) :
    (Queries.GET_CLASS_BY_ID db class_id = none →
      BookingService.get_class_availability db class_id = none) ∧
    (∀ c, Queries.GET_CLASS_BY_ID db class_id = some c →
      ∃ info, BookingService.get_class_availability db class_id = some info ∧
        info.total_slots = c.total_slots ∧
        info.available_slots = c.available_slots ∧
        info.booked_slots = c.total_slots - c.available_slots ∧
        (info.is_available = true ↔ 0 < c.available_slots)) := by
  constructor
  · intro h
    unfold BookingService.get_class_availability BookingRepository.get_class_by_id
    rw [h]
  · intro c h
    unfold BookingService.get_class_availability BookingRepository.get_class_by_id
    rw [h]
    exact ⟨_, rfl, rfl, rfl, rfl, by simp⟩

/-- C9 witness: the availability record of the one-slot class, and absence
for an id with no class. -/
theorem get_class_availability_spec_witness :
    (∃ info, BookingService.get_class_availability raceDB 1 = some info ∧
      info.total_slots = raceClass.total_slots ∧
      info.available_slots = raceClass.available_slots ∧
      info.booked_slots = raceClass.total_slots - raceClass.available_slots ∧
      (info.is_available = true ↔ 0 < raceClass.available_slots)) ∧
    BookingService.get_class_availability emptyDB 7 = none :=
  ⟨(get_class_availability_spec raceDB 1).2 raceClass (by decide),
   (get_class_availability_spec emptyDB 7).1 (by decide)⟩

/-- C10: an empty email, or one without an @ sign, makes
get_bookings_by_email answer [] for every store state — the guard at
booking_service.py line 157 returns before any repository access, so the
result does not depend on the store at all. -/
theorem invalid_email_returns_empty (db : DB) (email : String)
    (h : email = "" ∨ email.data.contains '@' = false) :
    BookingService.get_bookings_by_email db email = [] := by
  unfold BookingService.get_bookings_by_email
  rw [if_pos h]

/-- The concrete sequential service is the abstract (dependency-injected)
service applied to what the concrete repository answers: evidence that
`create_booking_with_repo` embeds the same decision procedure as
`BookingService.create_booking`. -/
theorem create_booking_eq_with_repo (db : DB) (now t : Int) (req : BookingRequest) :
    (BookingService.create_booking db now t req).1 =
      BookingService.create_booking_with_repo
        ⟨BookingRepository.get_class_by_id db req.class_id,
         BookingRepository.check_existing_booking db req.class_id req.client_email,
         (BookingRepository.create_booking db req t).1⟩ now req.class_id := by
  unfold BookingService.create_booking BookingService.create_booking_with_repo
  rcases hc : BookingRepository.get_class_by_id db req.class_id with _ | c
  · rfl
  · simp only
    rcases hdt : c.datetime_utc with _ | ts
    · rfl
    · simp only
      by_cases h1 : ts ≤ now
      · simp [h1]
      · simp only [if_neg h1]
        by_cases h2 : c.available_slots ≤ 0
        · simp [h2]
        · simp only [if_neg h2]
          by_cases h3 : BookingRepository.check_existing_booking db req.class_id req.client_email
          · simp [h3]
          · simp only [h3, Bool.false_eq_true, if_false]
            rcases hr : BookingRepository.create_booking db req t with ⟨ob, db'⟩
            rcases ob with _ | b <;> simp

/-- C7 counterexample: a repository whose create_booking transaction ended
with the conditional decrement affecting no row returns None (repository.py
lines 156-161); the service then answers the generic "Failed to create
booking. Please try again." result — not the ClassFull rejection the claim
requires. -/
theorem decrement_failed_generic_cx :
    BookingService.create_booking_with_repo ⟨some raceClass, false, none⟩ 0 1 =
      .createFailed ∧
    (BookingService.create_booking_with_repo ⟨some raceClass, false, none⟩ 0 1).isClassFull
      = false ∧
    BookingOutcome.createFailed.message = "Failed to create booking. Please try again." := by
  decide

/-- C7 (amended): when the conditional decrement affects no row the unit of
work is indeed rolled back — the repository returns None with the store at
its pre-call value, so no booking row remains — but the service then
returns the generic create-failure rejection, not ClassFull. -/
theorem decrement_failed_rolls_back_and_is_generic :
    (∀ (repo : BookingService.RepoCallResults) (now ts : Int) (class_id : Nat) (c : Class),
      repo.get_class_by_id = some c → c.datetime_utc = some ts → now < ts →
      0 < c.available_slots → repo.check_existing_booking = false →
      repo.create_booking = none →
      BookingService.create_booking_with_repo repo now class_id = .createFailed ∧
      (BookingService.create_booking_with_repo repo now class_id).isClassFull = false) ∧
    (∀ (db : DB) (req : BookingRequest) (t : Int),
      (BookingRepository.create_booking db req t).1 = none →
      (BookingRepository.create_booking db req t).2 = db) := by
  constructor
  · intro repo now ts class_id c hc hdt hfut hslots hdup hnone
    unfold BookingService.create_booking_with_repo
    rw [hc]
    simp [hdt, hdup, hnone, not_le.mpr hfut, not_le.mpr hslots, BookingOutcome.isClassFull]
  · exact fun db req t h => repo_create_none_state db req t h

/-- C7 witness: the amended theorem applied to a one-slot future class whose
decrement failed, and to a rolled-back transaction on the empty store. -/
theorem decrement_failed_rolls_back_and_is_generic_witness :
    (BookingService.create_booking_with_repo ⟨some raceClass, false, none⟩ 5 1 =
        .createFailed ∧
      (BookingService.create_booking_with_repo ⟨some raceClass, false, none⟩ 5 1).isClassFull
        = false) ∧
    (BookingRepository.create_booking emptyDB reqA 0).2 = emptyDB :=
  ⟨decrement_failed_rolls_back_and_is_generic.1 ⟨some raceClass, false, none⟩ 5 100 1
      raceClass rfl (by decide) (by decide) (by decide) rfl rfl,
   decrement_failed_rolls_back_and_is_generic.2 emptyDB reqA 0 (by decide)⟩

/-- C2 counterexample: under the interleaving where caller B reads the class
row (seeing 1 slot), caller A then completes its whole call (taking the last
slot), and B then finishes, B's repository transaction finds 0 slots,
returns None, and the service answers the generic create-failure rejection —
not Rejected(ClassFull) as the claim requires of every interleaving. -/
theorem race_loser_not_class_full_cx :
    (raceRun [false, true, true, true, false, false]).call1.isConfirmedDone = true ∧
    (raceRun [false, true, true, true, false, false]).call2 = .done .createFailed ∧
    (raceRun [false, true, true, true, false, false]).call2.isClassFullDone = false := by
  decide

/-- Boolean check used to settle the race claim over all interleavings:
exactly one caller confirms, and each caller ends confirmed, fully-booked
rejected, or generic-failure rejected. -/
def raceCheck (sched : List Bool) : Bool :=
  ((raceRun sched).call1.isConfirmedDone != (raceRun sched).call2.isConfirmedDone) &&
  ((raceRun sched).call1.isConfirmedDone || (raceRun sched).call1.isClassFullDone ||
    ((raceRun sched).call1 == CallPhase.done .createFailed)) &&
  ((raceRun sched).call2.isConfirmedDone || (raceRun sched).call2.isClassFullDone ||
    ((raceRun sched).call2 == CallPhase.done .createFailed))

/-- C2 (amended): for the one-slot class and two concurrent calls from
distinct emails, under every interleaving of their store accesses exactly
one call confirms; the other is rejected, either as ClassFull (when its
snapshot read already sees 0 slots) or with the generic create-failure
result (when the race is detected only inside the repository transaction).
The conditional decrement itself is atomic, but the service-level capacity
check is a separate stale read, so the loser's verdict is not always
ClassFull. -/
theorem race_exactly_one_confirmed (sched : List Bool) (h : sched ∈ schedules 3 3) :
    ((raceRun sched).call1.isConfirmedDone != (raceRun sched).call2.isConfirmedDone) = true ∧
    ((raceRun sched).call1.isConfirmedDone || (raceRun sched).call1.isClassFullDone ||
      ((raceRun sched).call1 == CallPhase.done .createFailed)) = true ∧
    ((raceRun sched).call2.isConfirmedDone || (raceRun sched).call2.isClassFullDone ||
      ((raceRun sched).call2 == CallPhase.done .createFailed)) = true := by
  have hall : (schedules 3 3).all raceCheck = true := by decide
  have hc : raceCheck sched = true := List.all_eq_true.mp hall sched h
  unfold raceCheck at hc
  rw [Bool.and_eq_true, Bool.and_eq_true] at hc
  exact ⟨hc.1.1, hc.1.2, hc.2⟩

/-- C2 witness: the race theorem applied to the fully sequential schedule,
where the loser does see ClassFull. -/
theorem race_exactly_one_confirmed_witness :
    [true, true, true, false, false, false] ∈ schedules 3 3 ∧
    (((raceRun [true, true, true, false, false, false]).call1.isConfirmedDone !=
        (raceRun [true, true, true, false, false, false]).call2.isConfirmedDone) = true ∧
      ((raceRun [true, true, true, false, false, false]).call1.isConfirmedDone ||
        (raceRun [true, true, true, false, false, false]).call1.isClassFullDone ||
        ((raceRun [true, true, true, false, false, false]).call1 ==
          CallPhase.done .createFailed)) = true ∧
      ((raceRun [true, true, true, false, false, false]).call2.isConfirmedDone ||
        (raceRun [true, true, true, false, false, false]).call2.isClassFullDone ||
        ((raceRun [true, true, true, false, false, false]).call2 ==
          CallPhase.done .createFailed)) = true) :=
  ⟨by decide, race_exactly_one_confirmed [true, true, true, false, false, false] (by decide)⟩

/-- C4 counterexample: on a future-dated class with exactly one available
slot and no prior booking, two sequential identical attempts yield Confirmed
then ClassFull — not DuplicateBooking — because the first success consumed
the last slot and the capacity check runs before the duplicate check. -/
theorem sequential_one_slot_cx :
    (BookingService.create_booking oneSlotDB 0 50 reqA).1.isConfirmed = true ∧
    (BookingService.create_booking
        (BookingService.create_booking oneSlotDB 0 50 reqA).2 0 60 reqA).1 =
      .classFull "Yoga" ∧
    (BookingService.create_booking
        (BookingService.create_booking oneSlotDB 0 50 reqA).2 0 60 reqA).1 ≠
      .duplicateBooking := by
  decide

/-- C10 witness: the repository test's "invalid-email" input against a
store that does hold bookings. -/
theorem invalid_email_returns_empty_witness :
    ("invalid-email" = "" ∨ (String.data "invalid-email").contains '@' = false) ∧
    BookingService.get_bookings_by_email fullDupDB "invalid-email" = [] :=
  ⟨by decide, invalid_email_returns_empty fullDupDB "invalid-email" (by decide)⟩

/-- Reading a class after the conditional decrement on `class_id` sees the
original row, decremented when that row matched the UPDATE's WHERE clause. -/
theorem GET_CLASS_BY_ID_update (db : DB) (class_id target : Nat) :
    Queries.GET_CLASS_BY_ID (Queries.UPDATE_CLASS_SLOTS db class_id).1 target =
      (Queries.GET_CLASS_BY_ID db target).map (fun c =>
        if c.id = class_id ∧ 0 < c.available_slots then
          { c with available_slots := c.available_slots - 1 }
        else c) := by
  unfold Queries.GET_CLASS_BY_ID Queries.UPDATE_CLASS_SLOTS
  rw [List.find?_map]
  have hpf : ((fun c : Class => decide (c.id = target)) ∘ fun c =>
      if c.id = class_id ∧ 0 < c.available_slots then
        { c with available_slots := c.available_slots - 1 }
      else c) = fun c : Class => decide (c.id = target) := by
    funext c
    by_cases h : c.id = class_id ∧ 0 < c.available_slots <;> simp [h]
  rw [hpf]

/-- Inserting a booking row leaves the classes table untouched. -/
theorem GET_CLASS_BY_ID_insert (db : DB) (class_id : Nat) (n e : String) (t : Int)
    (target : Nat) :
    Queries.GET_CLASS_BY_ID (Queries.INSERT_BOOKING db class_id n e t).1 target =
      Queries.GET_CLASS_BY_ID db target := rfl

/-- The confirmed-booking count for (class_id, email) grows by exactly one
when a confirmed booking for that pair is inserted. -/
theorem CHECK_EXISTING_BOOKING_insert_same (db : DB) (class_id : Nat) (n e : String)
    (t : Int) :
    Queries.CHECK_EXISTING_BOOKING (Queries.INSERT_BOOKING db class_id n e t).1 class_id e =
      Queries.CHECK_EXISTING_BOOKING db class_id e + 1 := by
  unfold Queries.CHECK_EXISTING_BOOKING Queries.INSERT_BOOKING
  simp

/-- The conditional decrement leaves the bookings table untouched. -/
theorem CHECK_EXISTING_BOOKING_update (db : DB) (class_id : Nat) (cid : Nat) (e : String) :
    Queries.CHECK_EXISTING_BOOKING (Queries.UPDATE_CLASS_SLOTS db class_id).1 cid e =
      Queries.CHECK_EXISTING_BOOKING db cid e := rfl

/-- On a store whose class has free slots and no confirmed booking for the
caller, the repository transaction commits: it returns the new booking row
and the store with that row appended and the slot decremented. -/
theorem repo_create_commits
    (db : DB) (req : BookingRequest) (t : Int) (c : Class)
    (hc : Queries.GET_CLASS_BY_ID db req.class_id = some c)
    (hslots : 0 < c.available_slots)
    (hnodup : Queries.CHECK_EXISTING_BOOKING db req.class_id req.client_email = 0) :
    BookingRepository.create_booking db req t =
      (some ⟨db.next_booking_id, req.class_id, req.client_name, req.client_email,
         t, "confirmed"⟩,
       (Queries.UPDATE_CLASS_SLOTS
         (Queries.INSERT_BOOKING db req.class_id req.client_name req.client_email t).1
         req.class_id).1) := by
  have hid : c.id = req.class_id := by
    have := List.find?_some hc
    exact of_decide_eq_true this
  have hmem : c ∈ db.classes := List.mem_of_find?_eq_some hc
  have hupd : (Queries.UPDATE_CLASS_SLOTS
      (Queries.INSERT_BOOKING db req.class_id req.client_name req.client_email t).1
      req.class_id).2 ≠ 0 := by
    unfold Queries.UPDATE_CLASS_SLOTS
    simp only
    intro h0
    rw [List.length_eq_zero] at h0
    have hcf : c ∈ (Queries.INSERT_BOOKING db req.class_id req.client_name
        req.client_email t).1.classes.filter
          (fun x => decide (x.id = req.class_id ∧ 0 < x.available_slots)) :=
      List.mem_filter.mpr ⟨hmem, by simp only [decide_eq_true_eq]; exact ⟨hid, hslots⟩⟩
    rw [h0] at hcf
    exact absurd hcf (List.not_mem_nil c)
  unfold BookingRepository.create_booking
  rw [hc]
  simp only [not_le.mpr hslots, if_false, hnodup, Nat.lt_irrefl, if_neg hupd]
  simp [not_le.mpr hslots]
  rfl

/-- On a future-dated class with free slots and no confirmed booking for
the caller, the service call confirms a booking and its post-state is the
committed transaction state. -/
theorem service_create_commits
    (db : DB) (now t : Int) (req : BookingRequest) (c : Class) (ts : Int)
    (hc : Queries.GET_CLASS_BY_ID db req.class_id = some c)
    (hdt : c.datetime_utc = some ts) (hfut : now < ts)
    (hslots : 0 < c.available_slots)
    (hnodup : Queries.CHECK_EXISTING_BOOKING db req.class_id req.client_email = 0) :
    BookingService.create_booking db now t req =
      (.confirmed db.next_booking_id c.name c.instructor,
       (Queries.UPDATE_CLASS_SLOTS
         (Queries.INSERT_BOOKING db req.class_id req.client_name req.client_email t).1
         req.class_id).1) := by
  unfold BookingService.create_booking BookingRepository.get_class_by_id
    BookingRepository.check_existing_booking
  rw [hc]
  rw [repo_create_commits db req t c hc hslots hnodup]
  simp [hdt, not_le.mpr hfut, not_le.mpr hslots, hnodup]

/-- C4 (amended): on an existing future-dated class with at least two
available slots (so the first success does not fill the class) and no prior
confirmed booking for the email, two sequential identical attempts yield
Confirmed then Rejected(DuplicateBooking). -/
theorem sequential_second_attempt_duplicate
    (db : DB) (now t1 t2 : Int) (req : BookingRequest) (c : Class) (ts : Int)
    (hc : Queries.GET_CLASS_BY_ID db req.class_id = some c)
    (hdt : c.datetime_utc = some ts) (hfut : now < ts)
    (hslots : 2 ≤ c.available_slots)
    (hnodup : Queries.CHECK_EXISTING_BOOKING db req.class_id req.client_email = 0) :
    (BookingService.create_booking db now t1 req).1.isConfirmed = true ∧
    (BookingService.create_booking
        (BookingService.create_booking db now t1 req).2 now t2 req).1 =
      .duplicateBooking := by
  have hpos : 0 < c.available_slots := by omega
  have hid : c.id = req.class_id := by
    have := List.find?_some hc
    exact of_decide_eq_true this
  have hfirst := service_create_commits db now t1 req c ts hc hdt hfut hpos hnodup
  refine ⟨by rw [hfirst]; rfl, ?_⟩
  rw [hfirst]
  simp only
  have hclass2 : Queries.GET_CLASS_BY_ID
      (Queries.UPDATE_CLASS_SLOTS
        (Queries.INSERT_BOOKING db req.class_id req.client_name req.client_email t1).1
        req.class_id).1 req.class_id =
      some { c with available_slots := c.available_slots - 1 } := by
    rw [GET_CLASS_BY_ID_update, GET_CLASS_BY_ID_insert, hc]
    simp [hid, hpos]
  have hdup2 : Queries.CHECK_EXISTING_BOOKING
      (Queries.UPDATE_CLASS_SLOTS
        (Queries.INSERT_BOOKING db req.class_id req.client_name req.client_email t1).1
        req.class_id).1 req.class_id req.client_email = 1 := by
    rw [CHECK_EXISTING_BOOKING_update, CHECK_EXISTING_BOOKING_insert_same, hnodup]
  have hs2 : ¬ ((c.available_slots - 1 : Int) ≤ 0) := by omega
  unfold BookingService.create_booking BookingRepository.get_class_by_id
    BookingRepository.check_existing_booking
  rw [hclass2]
  simp [hdt, not_le.mpr hfut, hs2, hdup2]

/-- C4 witness: the amended theorem applied to a three-slot class. -/
theorem sequential_second_attempt_duplicate_witness :
    Queries.GET_CLASS_BY_ID roomyDB 1 = some roomyClass ∧
    roomyClass.datetime_utc = some 100 ∧ (0 : Int) < 100 ∧
    (2 : Int) ≤ roomyClass.available_slots ∧
    Queries.CHECK_EXISTING_BOOKING roomyDB 1 "a@x" = 0 ∧
    ((BookingService.create_booking roomyDB 0 50 reqA).1.isConfirmed = true ∧
      (BookingService.create_booking
          (BookingService.create_booking roomyDB 0 50 reqA).2 0 60 reqA).1 =
        .duplicateBooking) :=
  ⟨by decide, by decide, by decide, by decide, by decide,
   sequential_second_attempt_duplicate roomyDB 0 50 60 reqA roomyClass 100
     (by decide) (by decide) (by decide) (by decide) (by decide)⟩

/-!
Capacity invariant (C6) and cancellation (C8).
-/

/-- One state-changing engine operation (all other endpoints are reads). -/
inductive Op where
  | book (now booking_time : Int) (req : BookingRequest)
  | cancel (booking_id : Nat) (client_email : String)

/-- Apply one operation to the store, keeping its post-state. -/
def applyOp (db : DB) : Op → DB
  | .book now booking_time req => (BookingService.create_booking db now booking_time req).2
  | .cancel booking_id client_email =>
    (BookingService.cancel_booking db booking_id client_email).2

/-- Run a sequence of operations left to right. -/
def runOps (db : DB) : List Op → DB
  | [] => db
  | op :: ops => runOps (applyOp db op) ops

/-- The capacity invariant of spec P1 for every class row of the store. -/
def SlotsInv (db : DB) : Prop :=
  ∀ c ∈ db.classes, 0 ≤ c.available_slots ∧ c.available_slots ≤ c.total_slots

instance : DecidablePred SlotsInv := fun db =>
  List.decidableBAll _ db.classes

/-- The guarded conditional decrement preserves the capacity bounds of
every class row. -/
theorem UPDATE_CLASS_SLOTS_inv (db : DB) (class_id : Nat) (h : SlotsInv db) :
    SlotsInv (Queries.UPDATE_CLASS_SLOTS db class_id).1 := by
  intro c' hc'
  unfold Queries.UPDATE_CLASS_SLOTS at hc'
  simp only [List.mem_map] at hc'
  obtain ⟨c, hcm, hceq⟩ := hc'
  have hb := h c hcm
  by_cases hg : c.id = class_id ∧ 0 < c.available_slots
  · rw [if_pos hg] at hceq
    rw [← hceq]
    simp only
    omega
  · rw [if_neg hg] at hceq
    rw [← hceq]
    exact hb

/-- Which stores create_booking can end in: either the unchanged pre-call
store, or the committed transaction state. -/
theorem service_create_state_cases (db : DB) (now t : Int) (req : BookingRequest) :
    (BookingService.create_booking db now t req).2 = db ∨
    (BookingService.create_booking db now t req).2 =
      (Queries.UPDATE_CLASS_SLOTS
        (Queries.INSERT_BOOKING db req.class_id req.client_name req.client_email t).1
        req.class_id).1 := by
  unfold BookingService.create_booking BookingRepository.create_booking
  rcases hc : BookingRepository.get_class_by_id db req.class_id with _ | c
  · left; simp [hc]
  · have hcq : Queries.GET_CLASS_BY_ID db req.class_id = some c := hc
    simp only [hc, hcq]
    rcases hdt : c.datetime_utc with _ | ts
    · left; simp
    · simp only
      by_cases h1 : ts ≤ now
      · left; simp [h1]
      · simp only [if_neg h1]
        by_cases h2 : c.available_slots ≤ 0
        · left; simp [h2]
        · simp only [if_pos h2, if_neg h2]
          by_cases h3 : BookingRepository.check_existing_booking db req.class_id req.client_email
          · left; simp [h3]
          · have h3q : ¬ 0 < Queries.CHECK_EXISTING_BOOKING db req.class_id req.client_email := by
              unfold BookingRepository.check_existing_booking at h3
              simpa using h3
            simp only [h3, Bool.false_eq_true, if_false, if_neg h3q]
            by_cases h4 : (Queries.UPDATE_CLASS_SLOTS
                (Queries.INSERT_BOOKING db req.class_id req.client_name req.client_email t).1
                req.class_id).2 = 0
            · left; simp [h4]
            · right; simp [h4]

/-- Cancellation leaves the classes table — and so every slot count —
untouched. -/
theorem cancel_booking_classes (db : DB) (booking_id : Nat) (client_email : String) :
    (BookingService.cancel_booking db booking_id client_email).2.classes = db.classes := by
  unfold BookingService.cancel_booking BookingRepository.cancel_booking
  rcases hb : db.bookings.find? (fun b => b.id = booking_id) with _ | b
  · simp only [hb]
  · simp only [hb]
    by_cases hcond : b.status = "confirmed" ∧ b.client_email = client_email
    · rw [if_pos hcond]
    · rw [if_neg hcond]

/-- Every single operation preserves the capacity invariant. -/
theorem applyOp_inv (db : DB) (op : Op) (h : SlotsInv db) : SlotsInv (applyOp db op) := by
  cases op with
  | book now t req =>
    show SlotsInv (BookingService.create_booking db now t req).2
    rcases service_create_state_cases db now t req with hs | hs
    · rw [hs]
      exact h
    · rw [hs]
      exact UPDATE_CLASS_SLOTS_inv _ req.class_id h
  | cancel booking_id client_email =>
    intro c hc
    have hc2 : c ∈ (BookingService.cancel_booking db booking_id client_email).2.classes := hc
    rw [cancel_booking_classes] at hc2
    exact h c hc2

/-- C6: starting from any store satisfying 0 ≤ available_slots ≤ total_slots
for every class, any sequence of booking and cancellation operations
preserves those bounds; moreover each single operation changes each class
row either not at all or by the guarded decrement (only possible when
available_slots > 0). -/
theorem capacity_invariant (db : DB) (ops : List Op) (h : SlotsInv db) :
    SlotsInv (runOps db ops) ∧
    ∀ op c', c' ∈ (applyOp db op).classes →
      c' ∈ db.classes ∨
      ∃ c ∈ db.classes, 0 < c.available_slots ∧
        c' = { c with available_slots := c.available_slots - 1 } := by
  constructor
  · induction ops generalizing db with
    | nil => exact h
    | cons op ops ih => exact ih (applyOp db op) (applyOp_inv db op h)
  · intro op c' hc'
    cases op with
    | book now t req =>
      have hc2 : c' ∈ (BookingService.create_booking db now t req).2.classes := hc'
      rcases service_create_state_cases db now t req with hs | hs
      · rw [hs] at hc2
        exact Or.inl hc2
      · rw [hs] at hc2
        unfold Queries.UPDATE_CLASS_SLOTS at hc2
        simp only [List.mem_map] at hc2
        obtain ⟨c, hcm, hceq⟩ := hc2
        by_cases hg : c.id = req.class_id ∧ 0 < c.available_slots
        · rw [if_pos hg] at hceq
          exact Or.inr ⟨c, hcm, hg.2, hceq.symm⟩
        · rw [if_neg hg] at hceq
          exact Or.inl (hceq ▸ hcm)
    | cancel booking_id client_email =>
      have hc2 : c' ∈ (BookingService.cancel_booking db booking_id client_email).2.classes := hc'
      rw [cancel_booking_classes] at hc2
      exact Or.inl hc2

/-- C6 witness: the invariant theorem applied to the one-slot store and a
sequence that books twice (the second attempt fails) and cancels. -/
theorem capacity_invariant_witness :
    SlotsInv oneSlotDB ∧
    (SlotsInv (runOps oneSlotDB
        [.book 0 50 reqA, .book 0 60 reqB, .cancel 1 "a@x"]) ∧
      ∀ op c', c' ∈ (applyOp oneSlotDB op).classes →
        c' ∈ oneSlotDB.classes ∨
        ∃ c ∈ oneSlotDB.classes, 0 < c.available_slots ∧
          c' = { c with available_slots := c.available_slots - 1 }) :=
  ⟨by decide,
   capacity_invariant oneSlotDB [.book 0 50 reqA, .book 0 60 reqB, .cancel 1 "a@x"]
     (by decide)⟩

/-- Finding a booking id after the cancellation UPDATE yields the first
matching row with its status rewritten. -/
theorem find?_bookings_cancel (l : List Booking) (booking_id : Nat) :
    (l.map (fun x => if x.id = booking_id then { x with status := "cancelled" } else x)).find?
        (fun x => x.id = booking_id) =
      (l.find? (fun x => x.id = booking_id)).map
        (fun x => if x.id = booking_id then { x with status := "cancelled" } else x) := by
  rw [List.find?_map]
  have hpf : ((fun x : Booking => decide (x.id = booking_id)) ∘ fun x =>
      if x.id = booking_id then { x with status := "cancelled" } else x) =
      fun x : Booking => decide (x.id = booking_id) := by
    funext x
    by_cases h : x.id = booking_id <;> simp [h]
  rw [hpf]

/-- C8: cancel_booking answers Cancelled exactly when the first booking row
with the given id exists, is confirmed, and is owned by the caller, and then
that row's status becomes cancelled; in every other case it answers
NotFoundOrNotOwned and leaves the store unchanged.  The repository-level
lookup-and-transition is modelled from spec section 4.3. -/
theorem cancel_booking_spec (db : DB) (booking_id : Nat) (client_email : String) :
    (db.bookings.find? (fun b => b.id = booking_id) = none →
      BookingService.cancel_booking db booking_id client_email =
        (.notFoundOrNotOwned, db)) ∧
    (∀ b, db.bookings.find? (fun b => b.id = booking_id) = some b →
      (b.status = "confirmed" ∧ b.client_email = client_email →
        (BookingService.cancel_booking db booking_id client_email).1 = .cancelled ∧
        (BookingService.cancel_booking db booking_id client_email).2.bookings.find?
            (fun x => x.id = booking_id) = some { b with status := "cancelled" }) ∧
      (¬ (b.status = "confirmed" ∧ b.client_email = client_email) →
        BookingService.cancel_booking db booking_id client_email =
          (.notFoundOrNotOwned, db))) := by
  constructor
  · intro h
    unfold BookingService.cancel_booking BookingRepository.cancel_booking
    rw [h]
  · intro b hb
    have hbid : b.id = booking_id := by
      have := List.find?_some hb
      exact of_decide_eq_true this
    constructor
    · intro hcond
      unfold BookingService.cancel_booking BookingRepository.cancel_booking
      simp only [hb, if_pos hcond]
      refine ⟨trivial, ?_⟩
      rw [find?_bookings_cancel, hb]
      simp [hbid]
    · intro hcond
      unfold BookingService.cancel_booking BookingRepository.cancel_booking
      simp only [hb, if_neg hcond]

/-- Store with one confirmed booking, for the cancellation witness. -/
def cancelDB : DB := ⟨[], [⟨1, 1, "Alice", "a@x", 0, "confirmed"⟩], 2⟩

/-- C8 witness: the owner cancels her confirmed booking and the row becomes
cancelled; a different email and an unknown booking id are both refused with
the store unchanged. -/
theorem cancel_booking_spec_witness :
    ((BookingService.cancel_booking cancelDB 1 "a@x").1 = .cancelled ∧
      (BookingService.cancel_booking cancelDB 1 "a@x").2.bookings.find?
          (fun x => x.id = 1) =
        some { (⟨1, 1, "Alice", "a@x", 0, "confirmed"⟩ : Booking) with
                status := "cancelled" }) ∧
    BookingService.cancel_booking cancelDB 1 "b@x" = (.notFoundOrNotOwned, cancelDB) ∧
    BookingService.cancel_booking cancelDB 9 "a@x" = (.notFoundOrNotOwned, cancelDB) :=
  ⟨(((cancel_booking_spec cancelDB 1 "a@x").2 ⟨1, 1, "Alice", "a@x", 0, "confirmed"⟩
      (by decide)).1 ⟨rfl, rfl⟩),
   (((cancel_booking_spec cancelDB 1 "b@x").2 ⟨1, 1, "Alice", "a@x", 0, "confirmed"⟩
      (by decide)).2 (by decide)),
   ((cancel_booking_spec cancelDB 9 "a@x").1 (by decide))⟩

end GymBooking
